import Mathlib

/-!
# Shallow embedding of go-simpler/queries

This file embeds the driver-interception layer (`interceptor.go`, newest
variant), the query `Builder` (both variants of `builder.go`), and
`QueryRow` (`query.go`) of the go-simpler/queries library, and proves the
specification claims about them.

Modelling conventions:
* Go interface values with optional capabilities become records of
  `Option`-valued operations: a field is `some f` exactly when the dynamic
  type assertion `v.(Iface)` would succeed, and `f` is the underlying
  method.
* Go functions returning `(T, error)` become `GoRet T = Option T × Option Err`
  (both components nillable), or `Except Err T` where the driver contract
  guarantees exactly one side is set.
* Go panics become the `Outcome.panics msg` constructor.
* `driver.ErrSkip` is the distinguished `Err.errSkip` value.
-/

set_option autoImplicit false

/-- Contexts are opaque; only their identity matters for the claims. -/
abbrev Ctx := Nat

abbrev Query := String

/-- A `driver.NamedValue`; opaque for the claims at hand. -/
abbrev NamedValue := Nat

abbrev Args := List NamedValue

/-- Opaque `driver.Result`. -/
abbrev Res := Nat

/-- Opaque `driver.Rows`. -/
abbrev Rows := Nat

/-- Opaque `driver.Stmt`. -/
abbrev Stmt := Nat

/-- Opaque `driver.Tx`. -/
abbrev Tx := Nat

/-- Opaque `driver.TxOptions`. -/
abbrev TxOptions := Nat

/-- Go `error` values reachable in the interception layer:
`errSkip` is the sentinel `driver.ErrSkip`; `e n` is any other error. -/
inductive Err where
| errSkip
| e (n : Nat)
deriving DecidableEq

/-- A Go `(T, error)` return where each half may be nil. -/
abbrev GoRet (α : Type) := Option α × Option Err

/-- Result of running a Go function that may panic. -/
inductive Outcome (α : Type) where
| ok (a : α)
| panics (msg : String)

instance {α : Type} [DecidableEq α] : DecidableEq (Outcome α) := fun a b => by
  cases a <;> cases b <;>
    first
      | (apply isFalse; intro h; exact Outcome.noConfusion h)
      | · rename_i x y
          by_cases h : x = y
          · subst h; exact isTrue rfl
          · apply isFalse; intro hc; cases hc; exact h rfl

/-- An underlying `driver.Conn` as a capability record: a field is `some`
iff the corresponding Go type assertion on the connection succeeds. -/
structure Conn where
  execContext : Option (Ctx → Query → Args → GoRet Res)
  queryContext : Option (Ctx → Query → Args → GoRet Rows)
  prepareContext : Option (Ctx → Query → GoRet Stmt)
  beginTx : Option (Ctx → TxOptions → GoRet Tx)
  ping : Option (Ctx → Option Err)
  resetSession : Option (Ctx → Option Err)
  isValid : Option (Unit → Bool)
  checkNamedValue : Option (NamedValue → Option Err)

/-- A `driver.Connector`: `Connect(ctx) (driver.Conn, error)`, with the
driver contract that exactly one of the pair is meaningful. -/
structure Connector where
  connect : Ctx → Except Err Conn

/-- An underlying `driver.Driver`; `openConnector` is `some` iff the driver
also implements `driver.DriverContext`. -/
structure Driver where
  Open : String → Except Err Conn
  openConnector : Option (String → Except Err Connector)

/-- The `Interceptor` struct: the wrapped driver plus the four optional
callbacks. Each callback receives the context, the operation arguments,
and a delegate bound to the underlying connection. -/
structure Interceptor where
  Driver : Driver
  ExecContext : Option (Ctx → Query → Args → (Ctx → Query → Args → GoRet Res) → GoRet Res)
  QueryContext : Option (Ctx → Query → Args → (Ctx → Query → Args → GoRet Rows) → GoRet Rows)
  PrepareContext : Option (Ctx → Query → (Ctx → Query → GoRet Stmt) → GoRet Stmt)
  BeginTx : Option (Ctx → TxOptions → (Ctx → TxOptions → GoRet Tx) → GoRet Tx)

/-- `wrappedConn`: the underlying connection plus the interceptor. -/
structure wrappedConn where
  Conn : Conn
  interceptor : Interceptor

/-- `wrappedConn.Ping`: type-assert `driver.Pinger`, panic when absent. -/
def wrappedConn.Ping (c : wrappedConn) (ctx : Ctx) : Outcome (Option Err) :=
  match c.Conn.ping with
  | none => .panics "queries: driver does not implement driver.Pinger"
  | some pinger => .ok (pinger ctx)

/-- `wrappedConn.ExecContext`: if the underlying connection lacks
`driver.ExecerContext`, return `(nil, driver.ErrSkip)`; otherwise dispatch
through the `ExecContext` callback when registered, else call through. -/
def wrappedConn.ExecContext (c : wrappedConn) (ctx : Ctx) (query : Query) (args : Args) :
    Outcome (GoRet Res) :=
  match c.Conn.execContext with
  | none => .ok (none, some Err.errSkip)
  | some execer =>
    match c.interceptor.ExecContext with
    | some cb => .ok (cb ctx query args execer)
    | none => .ok (execer ctx query args)

/-- `wrappedConn.QueryContext`: same shape as `ExecContext` against the
query capability. -/
def wrappedConn.QueryContext (c : wrappedConn) (ctx : Ctx) (query : Query) (args : Args) :
    Outcome (GoRet Rows) :=
  match c.Conn.queryContext with
  | none => .ok (none, some Err.errSkip)
  | some queryer =>
    match c.interceptor.QueryContext with
    | some cb => .ok (cb ctx query args queryer)
    | none => .ok (queryer ctx query args)

/-- `wrappedConn.PrepareContext`: panics when the underlying connection
lacks `driver.ConnPrepareContext`; otherwise callback-or-direct dispatch. -/
def wrappedConn.PrepareContext (c : wrappedConn) (ctx : Ctx) (query : Query) :
    Outcome (GoRet Stmt) :=
  match c.Conn.prepareContext with
  | none => .panics "queries: driver does not implement driver.ConnPrepareContext"
  | some preparer =>
    match c.interceptor.PrepareContext with
    | some cb => .ok (cb ctx query preparer)
    | none => .ok (preparer ctx query)

/-- `wrappedConn.BeginTx`: panics when the underlying connection lacks
`driver.ConnBeginTx`; otherwise callback-or-direct dispatch. -/
def wrappedConn.BeginTx (c : wrappedConn) (ctx : Ctx) (opts : TxOptions) :
    Outcome (GoRet Tx) :=
  match c.Conn.beginTx with
  | none => .panics "queries: driver does not implement driver.ConnBeginTx"
  | some beginner =>
    match c.interceptor.BeginTx with
    | some cb => .ok (cb ctx opts beginner)
    | none => .ok (beginner ctx opts)

/-- `wrappedConnSessionResetter`: embeds `wrappedConn`, adds `ResetSession`. -/
structure wrappedConnSessionResetter where
  toWrappedConn : wrappedConn

/-- `ResetSession` forwards to the underlying connection unmodified. -/
def wrappedConnSessionResetter.ResetSession (c : wrappedConnSessionResetter) (ctx : Ctx) :
    Outcome (Option Err) :=
  match c.toWrappedConn.Conn.resetSession with
  | none => .panics "interface conversion"
  | some f => .ok (f ctx)

/-- `wrappedConnValidator`: embeds `wrappedConn`, adds `IsValid`. -/
structure wrappedConnValidator where
  toWrappedConn : wrappedConn

/-- `IsValid` forwards to the underlying connection unmodified. -/
def wrappedConnValidator.IsValid (c : wrappedConnValidator) : Outcome Bool :=
  match c.toWrappedConn.Conn.isValid with
  | none => .panics "interface conversion"
  | some f => .ok (f ())

/-- `wrappedConnNamedValueChecker`: embeds `wrappedConn`, adds
`CheckNamedValue`. -/
structure wrappedConnNamedValueChecker where
  toWrappedConn : wrappedConn

/-- `CheckNamedValue` forwards to the underlying connection unmodified. -/
def wrappedConnNamedValueChecker.CheckNamedValue (c : wrappedConnNamedValueChecker)
    (nv : NamedValue) : Outcome (Option Err) :=
  match c.toWrappedConn.Conn.checkNamedValue with
  | none => .panics "interface conversion"
  | some f => .ok (f nv)

/-- The anonymous Go struct embedding `wrappedConn`,
`wrappedConnSessionResetter`, `wrappedConnValidator`, and
`wrappedConnNamedValueChecker`. -/
structure compositeSRVN where
  toWrappedConn : wrappedConn
  toSessionResetter : wrappedConnSessionResetter
  toValidator : wrappedConnValidator
  toNamedValueChecker : wrappedConnNamedValueChecker

/-- The anonymous Go struct embedding `wrappedConn`,
`wrappedConnSessionResetter`, and `wrappedConnValidator`. -/
structure compositeSRV where
  toWrappedConn : wrappedConn
  toSessionResetter : wrappedConnSessionResetter
  toValidator : wrappedConnValidator

/-- The anonymous Go struct embedding `wrappedConn`,
`wrappedConnSessionResetter`, and `wrappedConnNamedValueChecker`. -/
structure compositeSRN where
  toWrappedConn : wrappedConn
  toSessionResetter : wrappedConnSessionResetter
  toNamedValueChecker : wrappedConnNamedValueChecker

/-- The anonymous Go struct embedding `wrappedConn`,
`wrappedConnValidator`, and `wrappedConnNamedValueChecker`. -/
structure compositeVN where
  toWrappedConn : wrappedConn
  toValidator : wrappedConnValidator
  toNamedValueChecker : wrappedConnNamedValueChecker

/-- The dynamic type of the `driver.Conn` value returned by
`wrappedConnector.Connect`: one of the eight concrete Go types the
`switch` can produce. -/
inductive ConnectedConn where
| base (c : wrappedConn)
| srvn (c : compositeSRVN)
| srv (c : compositeSRV)
| srn (c : compositeSRN)
| vn (c : compositeVN)
| sr (c : wrappedConnSessionResetter)
| v (c : wrappedConnValidator)
| n (c : wrappedConnNamedValueChecker)

/-- Whether the host runtime's type assertion `.(driver.SessionResetter)`
succeeds on the returned value; derived from Go method-set promotion rules
for each of the eight concrete shapes (`ResetSession` is present exactly on
the shapes that contain `wrappedConnSessionResetter` at embedding depth 1). -/
def ConnectedConn.implementsSessionResetter : ConnectedConn → Bool
| .srvn _ => true
| .srv _ => true
| .srn _ => true
| .sr _ => true
| _ => false

/-- Whether `.(driver.Validator)` succeeds on the returned value; derived
from Go method-set promotion rules as above. -/
def ConnectedConn.implementsValidator : ConnectedConn → Bool
| .srvn _ => true
| .srv _ => true
| .vn _ => true
| .v _ => true
| _ => false

/-- Whether `.(driver.NamedValueChecker)` succeeds on the returned value;
derived from Go method-set promotion rules as above. -/
def ConnectedConn.implementsNamedValueChecker : ConnectedConn → Bool
| .srvn _ => true
| .srn _ => true
| .vn _ => true
| .n _ => true
| _ => false

/-- The `wrappedConn` core of a returned connection value (the Go value's
`wrappedConn` embedded field, through which all non-facet methods go). -/
def ConnectedConn.toWrappedConn : ConnectedConn → wrappedConn
| .base c => c
| .srvn c => c.toWrappedConn
| .srv c => c.toWrappedConn
| .srn c => c.toWrappedConn
| .vn c => c.toWrappedConn
| .sr c => c.toWrappedConn
| .v c => c.toWrappedConn
| .n c => c.toWrappedConn

/-- `wrappedConnector`: the underlying connector plus the interceptor. -/
structure wrappedConnector where
  Connector : Connector
  interceptor : Interceptor

/-- `wrappedConnector.Connect`: propagate connector errors unchanged; on
success probe the three optional facets of the fresh underlying connection
and select the composite wrapper shape matching exactly the probed set. -/
def wrappedConnector.Connect (c : wrappedConnector) (ctx : Ctx) : Except Err ConnectedConn :=
  match c.Connector.connect ctx with
  | .error err => .error err
  | .ok conn =>
    let wconn : wrappedConn := ⟨conn, c.interceptor⟩
    let isSessionResetter := conn.resetSession.isSome
    let isValidator := conn.isValid.isSome
    let isNamedValueChecker := conn.checkNamedValue.isSome
    if isSessionResetter && isValidator && isNamedValueChecker then
      .ok (.srvn ⟨wconn, ⟨wconn⟩, ⟨wconn⟩, ⟨wconn⟩⟩)
    else if isSessionResetter && isValidator then
      .ok (.srv ⟨wconn, ⟨wconn⟩, ⟨wconn⟩⟩)
    else if isSessionResetter && isNamedValueChecker then
      .ok (.srn ⟨wconn, ⟨wconn⟩, ⟨wconn⟩⟩)
    else if isValidator && isNamedValueChecker then
      .ok (.vn ⟨wconn, ⟨wconn⟩, ⟨wconn⟩⟩)
    else if isSessionResetter then
      .ok (.sr ⟨wconn⟩)
    else if isValidator then
      .ok (.v ⟨wconn⟩)
    else if isNamedValueChecker then
      .ok (.n ⟨wconn⟩)
    else
      .ok (.base wconn)

/-- `dsnConnector` (copied in the source from database/sql): a default
connector built from a data-source-name and the raw driver. -/
structure dsnConnector where
  dsn : String
  driver : Driver

/-- `dsnConnector.Connect` ignores its context parameter and calls the
legacy `Driver.Open`, which takes no context. -/
def dsnConnector.Connect (t : dsnConnector) (_ : Ctx) : Except Err Conn :=
  t.driver.Open t.dsn

/-- View a `dsnConnector` as a `Connector`. -/
def dsnConnector.toConnector (t : dsnConnector) : Connector :=
  ⟨t.Connect⟩

/-- `Interceptor.OpenConnector`: use the underlying driver's own
context-aware connector when it has one, else the default `dsnConnector`. -/
def Interceptor.OpenConnector (i : Interceptor) (name : String) : Except Err wrappedConnector :=
  match i.Driver.openConnector with
  | some oc =>
    match oc name with
    | .error err => .error err
    | .ok c => .ok ⟨c, i⟩
  | none => .ok ⟨(dsnConnector.mk name i.Driver).toConnector, i⟩

/-- A placeholder verb of `Builder.Appendf`: `%?`, `%$`, or `%@`. -/
inductive Verb where
| qm
| dollar
| atSign
deriving DecidableEq

/-- The rune code stored in `Builder.placeholder` for each verb
(codepoints of the Go runes `?`, `$`, `@`). -/
def verbCode : Verb → Int
| .qm => 63
| .dollar => 36
| .atSign => 64

/-- The text `writePlaceholder` emits for one placeholder whose counter
value after incrementing is `n` (`n` is ignored for `%?`). -/
def placeholderText (v : Verb) (n : Nat) : String :=
  match v with
  | .qm => "?"
  | .dollar => "$" ++ toString n
  | .atSign => "@p" ++ toString n

/-- Counter evolution for one expanded placeholder: `%?` leaves the
counter unchanged, `%$` and `%@` increment it by one. -/
def bump : Verb → Nat → Nat
| .qm, c => c
| _, c => c + 1

/-- A Go `any` argument as seen by the builder through `reflect`: either a
non-slice value or a slice of values. -/
inductive Val where
| base (n : Nat)
| slice (xs : List Val)

/-- One piece of an `Appendf` format string, in the order `fmt.Fprintf`
processes it: literal text (this also stands for any non-placeholder verb,
which formats its argument without touching the builder state) or a
placeholder verb with its argument. -/
inductive Segment where
| lit (s : String)
| verb (v : Verb) (arg : Val)

/-- The arguments attached to the placeholder verbs of a segment list, in
order of appearance. -/
def segArgs : List Segment → List Val
| [] => []
| .lit _ :: rest => segArgs rest
| .verb _ a :: rest => a :: segArgs rest

/-- Number of placeholder-verb segments. -/
def countVerbs : List Segment → Nat
| [] => 0
| .lit _ :: rest => countVerbs rest
| .verb _ _ :: rest => countVerbs rest + 1

/-- Specification-level expansion of a segment list whose placeholder
verbs are all of kind `v`, with `k` placeholders of kinds `%$`/`%@`
already expanded before it: literals pass through, and the i-th
placeholder occurrence (1-based, counting from `k + 1`) renders as `?`,
`$i`, or `@pi`. -/
def specExpand (v : Verb) : Nat → List Segment → String
| _, [] => ""
| k, .lit s :: rest => s ++ specExpand v k rest
| k, .verb _ _ :: rest => placeholderText v (bump v k) ++ specExpand v (bump v k) rest

namespace V1

/-- The first `builder.go` variant of `Builder`. `placeholder` is `0` when
no placeholder verb has been seen, `-1` when different verbs were mixed,
and the verb's rune code otherwise. -/
structure Builder where
  query : String
  args : List Val
  counter : Nat
  placeholder : Int

/-- The zero `Builder`, which is ready to use. -/
def Builder.empty : Builder := ⟨"", [], 0, 0⟩

/-- The evolution of `Builder.placeholder` performed by the first switch
of `argument.Format`: adopt the first verb seen (`0` means unset), then
poison the state to `-1` when a different verb appears. -/
def phNext (p : Int) (verb : Verb) : Int :=
  let p1 : Int := if p = 0 then verbCode verb else p
  if p1 ≠ verbCode verb then -1 else p1

/-- `argument.Format` of the first variant, at a placeholder verb: record
the argument and the placeholder kind, then write the placeholder text,
incrementing the counter for `%$` and `%@`. -/
def Format (b : Builder) (value : Val) (verb : Verb) : Builder :=
  let b2 : Builder :=
    { b with
      args := b.args ++ [value]
      placeholder := phNext b.placeholder verb }
  match verb with
  | .qm => { b2 with query := b2.query ++ "?" }
  | .dollar =>
    { b2 with counter := b2.counter + 1, query := b2.query ++ "$" ++ toString (b2.counter + 1) }
  | .atSign =>
    { b2 with counter := b2.counter + 1, query := b2.query ++ "@p" ++ toString (b2.counter + 1) }

/-- `Builder.Appendf`: process the format segments left to right, writing
literals directly and dispatching placeholder verbs to `Format`. -/
def Appendf (b : Builder) : List Segment → Builder
| [] => b
| .lit s :: rest => Appendf { b with query := b.query ++ s } rest
| .verb v a :: rest => Appendf (Format b a v) rest

/-- `Builder.Args` returns the argument slice. -/
def Builder.Args (b : Builder) : List Val := b.args

end V1

namespace V2

/-- The second `builder.go` variant of `Builder` (the one with slice
expansion). -/
structure Builder where
  query : String
  args : List Val
  counter : Nat
  placeholder : Int

/-- The zero `Builder`. -/
def Builder.empty : Builder := ⟨"", [], 0, 0⟩

/-- `argument.writePlaceholder`: write `?`, `$N`, or `@pN`, incrementing
the counter first for `%$` and `%@`. -/
def writePlaceholder (b : Builder) (verb : Verb) : Builder :=
  match verb with
  | .qm => { b with query := b.query ++ "?" }
  | .dollar =>
    { b with counter := b.counter + 1, query := b.query ++ "$" ++ toString (b.counter + 1) }
  | .atSign =>
    { b with counter := b.counter + 1, query := b.query ++ "@p" ++ toString (b.counter + 1) }

/-- Append one value to `builder.args`. -/
def pushArg (b : Builder) (x : Val) : Builder :=
  { b with args := b.args ++ [x] }

/-- The iterations `i = 1, ...` of the `writeSlice` loop (every iteration
after the first): write `", "`, a placeholder, and append the element. -/
def writeSliceRest (verb : Verb) (b : Builder) : List Val → Builder
| [] => b
| x :: rest =>
  writeSliceRest verb (pushArg (writePlaceholder { b with query := b.query ++ ", " } verb) x) rest

/-- `argument.writeSlice`: panic on a non-slice argument; write `NULL` for
an empty slice (appending nothing to args); otherwise write comma-separated
placeholders and append each element in index order. -/
def writeSlice (b : Builder) (value : Val) (verb : Verb) : Outcome Builder :=
  match value with
  | .base _ => .panics "non-slice argument"
  | .slice [] => .ok { b with query := b.query ++ "NULL" }
  | .slice (x :: rest) => .ok (writeSliceRest verb (pushArg (writePlaceholder b verb) x) rest)

/-- `argument.Format` of the second variant, at a placeholder verb with or
without the `+` flag: set or check the placeholder kind (panicking on a
mismatch), then either expand a slice (`+` flag) or write one placeholder
and append the argument. -/
def Format (b : Builder) (value : Val) (verb : Verb) (plusFlag : Bool) : Outcome Builder :=
  let ph : Int := if b.placeholder = 0 then verbCode verb else b.placeholder
  if ph ≠ verbCode verb then .panics "unexpected placeholder"
  else
    let b1 : Builder := { b with placeholder := ph }
    if plusFlag then writeSlice b1 value verb
    else .ok (pushArg (writePlaceholder b1 verb) value)

end V2

/-- Specification-level text of the tail of a slice expansion: `m` further
placeholders, each preceded by `", "`, with the counter already at `c`. -/
def sliceQueryRest (v : Verb) : Nat → Nat → String
| _, 0 => ""
| c, m + 1 => ", " ++ placeholderText v (bump v c) ++ sliceQueryRest v (bump v c) m

/-- Specification-level text of a slice expansion of length `n` starting
with the counter at `c`: `n` comma-separated placeholders numbered
`c + 1, ..., c + n` (for `%$`/`%@`). -/
def sliceQuery (v : Verb) (c : Nat) : Nat → String
| 0 => ""
| m + 1 => placeholderText v (bump v c) ++ sliceQueryRest v (bump v c) m

/-- Errors observable through `QueryRow`: the sentinel `sql.ErrNoRows` or
any other error. -/
inductive SqlError where
| errNoRows
| driverErr (n : Nat)
deriving DecidableEq

/-- The behavior of one `*sql.Rows` handle, as `QueryRow` observes it:
the result of `rows.Columns()`, the result of the single `rows.Next()`
call, the value `rows.Err()` reports, and the result of scanning the
first row given the column list. -/
structure RowsModel (T : Type) where
  columns : Except SqlError (List String)
  next : Bool
  rowsErr : Option SqlError
  scanRow : List String → Except SqlError T

/-- `QueryRow`: run the query, fetch the columns, demand one row (mapping
"no rows and no iteration error" to `sql.ErrNoRows`), scan it, and check
`rows.Err()`; every failure path returns the zero value of `T` (passed
here as `zeroT`) alongside the error. -/
def QueryRow {T : Type} (zeroT : T) (queryRes : Except SqlError (RowsModel T)) :
    T × Option SqlError :=
  match queryRes with
  | .error err => (zeroT, some err)
  | .ok rows =>
    match rows.columns with
    | .error err => (zeroT, some err)
    | .ok columns =>
      if !rows.next then
        match rows.rowsErr with
        | some err => (zeroT, some err)
        | none => (zeroT, some SqlError.errNoRows)
      else
        match rows.scanRow columns with
        | .error err => (zeroT, some err)
        | .ok t =>
          match rows.rowsErr with
          | some err => (zeroT, some err)
          | none => (t, none)

/-- A concrete underlying `ExecerContext` implementation. -/
def exExecer : Ctx → Query → Args → GoRet Res :=
  fun ctx q args => (some (100 + ctx + q.length + args.length), none)

/-- A concrete underlying `QueryerContext` implementation. -/
def exQueryer : Ctx → Query → Args → GoRet Rows :=
  fun ctx q args => (some (200 + ctx + q.length + args.length), none)

/-- A concrete underlying `ConnPrepareContext` implementation. -/
def exPreparer : Ctx → Query → GoRet Stmt :=
  fun ctx q => (some (300 + ctx + q.length), none)

/-- A concrete underlying `ConnBeginTx` implementation. -/
def exBeginner : Ctx → TxOptions → GoRet Tx :=
  fun ctx opts => (some (400 + ctx + opts), none)

/-- A concrete underlying connection implementing every capability. -/
def exConnFull : Conn :=
  ⟨some exExecer, some exQueryer, some exPreparer, some exBeginner,
   some (fun _ => none), some (fun _ => none), some (fun _ => true), some (fun _ => none)⟩

/-- A concrete underlying connection implementing none of the optional
capabilities. -/
def exConnBare : Conn :=
  ⟨none, none, none, none, none, none, none, none⟩

/-- A concrete underlying connection implementing `SessionResetter` and
`NamedValueChecker` but not `Validator`. -/
def exConnSRN : Conn :=
  { exConnBare with
    resetSession := some (fun _ => none)
    checkNamedValue := some (fun _ => none) }

/-- A concrete underlying driver without a context-aware connector. -/
def exDriverBare : Driver :=
  ⟨fun _ => .ok exConnBare, none⟩

/-- An interceptor with no callbacks registered. -/
def exInterceptorNoCb : Interceptor :=
  ⟨exDriverBare, none, none, none, none⟩

/-- A concrete `ExecContext` callback that delegates through. -/
def exExecCb : Ctx → Query → Args → (Ctx → Query → Args → GoRet Res) → GoRet Res :=
  fun ctx q args execer => execer ctx q args

/-- A concrete `QueryContext` callback that delegates through. -/
def exQueryCb : Ctx → Query → Args → (Ctx → Query → Args → GoRet Rows) → GoRet Rows :=
  fun ctx q args queryer => queryer ctx q args

/-- A concrete `PrepareContext` callback that delegates through. -/
def exPrepareCb : Ctx → Query → (Ctx → Query → GoRet Stmt) → GoRet Stmt :=
  fun ctx q preparer => preparer ctx q

/-- A concrete `BeginTx` callback that delegates through. -/
def exBeginCb : Ctx → TxOptions → (Ctx → TxOptions → GoRet Tx) → GoRet Tx :=
  fun ctx opts beginner => beginner ctx opts

/-- An interceptor with all four callbacks registered. -/
def exInterceptorCb : Interceptor :=
  ⟨exDriverBare, some exExecCb, some exQueryCb, some exPrepareCb, some exBeginCb⟩

/-- A wrapped connection over a bare underlying connection. -/
def exWrappedBare : wrappedConn := ⟨exConnBare, exInterceptorNoCb⟩

/-- A wrapped connection over a full-capability connection, with all
callbacks registered. -/
def exWrappedFullCb : wrappedConn := ⟨exConnFull, exInterceptorCb⟩

/-- A wrapped connection over a full-capability connection, with no
callbacks registered. -/
def exWrappedFullNoCb : wrappedConn := ⟨exConnFull, exInterceptorNoCb⟩

/-- A wrapped connector whose underlying connector yields `exConnSRN`. -/
def exWConnectorSRN : wrappedConnector :=
  ⟨⟨fun _ => .ok exConnSRN⟩, exInterceptorNoCb⟩

/-- A wrapped connector whose underlying connector fails. -/
def exWConnectorErr : wrappedConnector :=
  ⟨⟨fun _ => .error (Err.e 7)⟩, exInterceptorNoCb⟩

/-- A concrete default connector built from a data-source-name. -/
def exDsnConnector : dsnConnector := ⟨"dsn", exDriverBare⟩

/-- A concrete segment list using only the `%$` verb. -/
def exSegs : List Segment :=
  [.lit "WHERE a = ", .verb .dollar (.base 42), .lit " AND b = ", .verb .dollar (.base 7)]

/-- A rows handle with no rows and no iteration error. -/
def exRowsEmpty : RowsModel Nat :=
  ⟨.ok ["c"], false, none, fun _ => .ok 5⟩

/-- A rows handle whose first-row scan fails. -/
def exRowsScanErr : RowsModel Nat :=
  ⟨.ok ["c"], true, none, fun _ => .error (SqlError.driverErr 3)⟩

/-- C1: for every underlying connection, the connection value returned by
`wrappedConnector.Connect` exposes the `SessionResetter`, `Validator`, and
`NamedValueChecker` facets if and only if the underlying connection
implements the corresponding interface, across all 8 present/absent
combinations (the three probed booleans range over all of `Bool`); the
wrapper never exposes a facet the underlying connection lacks and never
omits one it has. -/
theorem connect_capability_set_exact (c : wrappedConnector) (ctx : Ctx) (conn : Conn)
    (h : c.Connector.connect ctx = .ok conn) :
    ∃ w : ConnectedConn, c.Connect ctx = .ok w ∧
      w.implementsSessionResetter = conn.resetSession.isSome ∧
      w.implementsValidator = conn.isValid.isSome ∧
      w.implementsNamedValueChecker = conn.checkNamedValue.isSome := by
  unfold wrappedConnector.Connect
  rw [h]
  cases hsr : conn.resetSession.isSome <;> cases hv : conn.isValid.isSome <;>
    cases hn : conn.checkNamedValue.isSome <;>
      simp [hsr, hv, hn, ConnectedConn.implementsSessionResetter,
        ConnectedConn.implementsValidator, ConnectedConn.implementsNamedValueChecker]

/-- Witness for C1 at a concrete connector whose connection implements
`SessionResetter` and `NamedValueChecker` but not `Validator`. -/
theorem connect_capability_set_exact_witness :
    ∃ w : ConnectedConn, exWConnectorSRN.Connect 0 = .ok w ∧
      w.implementsSessionResetter = exConnSRN.resetSession.isSome ∧
      w.implementsValidator = exConnSRN.isValid.isSome ∧
      w.implementsNamedValueChecker = exConnSRN.checkNamedValue.isSome :=
  connect_capability_set_exact exWConnectorSRN 0 exConnSRN rfl

/-- C2: `ExecContext` (resp. `QueryContext`) on a wrapped connection whose
underlying connection lacks `driver.ExecerContext` (resp.
`driver.QueryerContext`) returns a nil result together with the sentinel
`driver.ErrSkip` — no panic, no other error. The statement holds for every
`wrappedConn`, hence for every registered callback configuration, so the
callback is never consulted on this path. -/
theorem exec_query_errSkip_fallback (c : wrappedConn) (ctx : Ctx) (q : Query) (args : Args) :
    (c.Conn.execContext = none →
      c.ExecContext ctx q args = .ok (none, some Err.errSkip)) ∧
    (c.Conn.queryContext = none →
      c.QueryContext ctx q args = .ok (none, some Err.errSkip)) := by
  constructor <;> intro h
  · simp [wrappedConn.ExecContext, h]
  · simp [wrappedConn.QueryContext, h]

/-- Witness for C2 at a capability-less concrete connection. -/
theorem exec_query_errSkip_fallback_witness :
    exWrappedBare.ExecContext 0 "q" [] = .ok (none, some Err.errSkip) ∧
    exWrappedBare.QueryContext 0 "q" [] = .ok (none, some Err.errSkip) :=
  ⟨(exec_query_errSkip_fallback exWrappedBare 0 "q" []).1 rfl,
   (exec_query_errSkip_fallback exWrappedBare 0 "q" []).2 rfl⟩

/-- C3: `PrepareContext` (resp. `BeginTx`) on a wrapped connection whose
underlying connection lacks `driver.ConnPrepareContext` (resp.
`driver.ConnBeginTx`) panics with a message naming the missing capability —
a hard failure distinguishable from the soft `(nil, driver.ErrSkip)`
fallback used for Exec/Query. -/
theorem prepare_begin_hard_failure (c : wrappedConn) (ctx : Ctx) (q : Query)
    (opts : TxOptions) :
    (c.Conn.prepareContext = none →
      c.PrepareContext ctx q =
        .panics "queries: driver does not implement driver.ConnPrepareContext" ∧
      c.PrepareContext ctx q ≠ .ok (none, some Err.errSkip)) ∧
    (c.Conn.beginTx = none →
      c.BeginTx ctx opts =
        .panics "queries: driver does not implement driver.ConnBeginTx" ∧
      c.BeginTx ctx opts ≠ .ok (none, some Err.errSkip)) := by
  constructor <;> intro h
  · refine ⟨by simp [wrappedConn.PrepareContext, h], ?_⟩
    simp [wrappedConn.PrepareContext, h]
  · refine ⟨by simp [wrappedConn.BeginTx, h], ?_⟩
    simp [wrappedConn.BeginTx, h]

/-- Witness for C3 at a capability-less concrete connection. -/
theorem prepare_begin_hard_failure_witness :
    (exWrappedBare.PrepareContext 0 "q" =
        .panics "queries: driver does not implement driver.ConnPrepareContext" ∧
      exWrappedBare.PrepareContext 0 "q" ≠ .ok (none, some Err.errSkip)) ∧
    (exWrappedBare.BeginTx 0 0 =
        .panics "queries: driver does not implement driver.ConnBeginTx" ∧
      exWrappedBare.BeginTx 0 0 ≠ .ok (none, some Err.errSkip)) :=
  ⟨(prepare_begin_hard_failure exWrappedBare 0 "q" 0).1 rfl,
   (prepare_begin_hard_failure exWrappedBare 0 "q" 0).2 rfl⟩

/-- C4: for each of the four operations with a registered callback and a
supporting underlying connection, the wrapped operation returns exactly
one application of the callback to the original context, query/options,
and argument list, plus the delegate bound to the underlying connection —
the callback's return value is the operation's return value, with no
interpretation, wrapping, or retry. -/
theorem callback_invoked_once_verbatim (c : wrappedConn) (ctx : Ctx) (q : Query)
    (args : Args) (opts : TxOptions) :
    (∀ execer cb, c.Conn.execContext = some execer → c.interceptor.ExecContext = some cb →
      c.ExecContext ctx q args = .ok (cb ctx q args execer)) ∧
    (∀ queryer cb, c.Conn.queryContext = some queryer → c.interceptor.QueryContext = some cb →
      c.QueryContext ctx q args = .ok (cb ctx q args queryer)) ∧
    (∀ preparer cb, c.Conn.prepareContext = some preparer →
      c.interceptor.PrepareContext = some cb →
      c.PrepareContext ctx q = .ok (cb ctx q preparer)) ∧
    (∀ beginner cb, c.Conn.beginTx = some beginner → c.interceptor.BeginTx = some cb →
      c.BeginTx ctx opts = .ok (cb ctx opts beginner)) := by
  refine ⟨fun f cb h1 h2 => ?_, fun f cb h1 h2 => ?_, fun f cb h1 h2 => ?_,
    fun f cb h1 h2 => ?_⟩
  · simp [wrappedConn.ExecContext, h1, h2]
  · simp [wrappedConn.QueryContext, h1, h2]
  · simp [wrappedConn.PrepareContext, h1, h2]
  · simp [wrappedConn.BeginTx, h1, h2]

/-- Witness for C4 at a full-capability connection with all four
delegate-through callbacks registered. -/
theorem callback_invoked_once_verbatim_witness :
    exWrappedFullCb.ExecContext 1 "q" [9] = .ok (exExecCb 1 "q" [9] exExecer) ∧
    exWrappedFullCb.QueryContext 1 "q" [9] = .ok (exQueryCb 1 "q" [9] exQueryer) ∧
    exWrappedFullCb.PrepareContext 1 "q" = .ok (exPrepareCb 1 "q" exPreparer) ∧
    exWrappedFullCb.BeginTx 1 2 = .ok (exBeginCb 1 2 exBeginner) :=
  ⟨(callback_invoked_once_verbatim exWrappedFullCb 1 "q" [9] 2).1 exExecer exExecCb rfl rfl,
   (callback_invoked_once_verbatim exWrappedFullCb 1 "q" [9] 2).2.1 exQueryer exQueryCb rfl rfl,
   (callback_invoked_once_verbatim exWrappedFullCb 1 "q" [9] 2).2.2.1 exPreparer exPrepareCb rfl rfl,
   (callback_invoked_once_verbatim exWrappedFullCb 1 "q" [9] 2).2.2.2 exBeginner exBeginCb rfl rfl⟩

/-- C5: for each of the four operations whose callback field is nil and a
supporting underlying connection, the wrapped operation returns exactly
the underlying connection's own operation applied to the same arguments
(pass-through transparency); `c` ranges over every wrapped connection, so
this holds regardless of which other callback fields are set. -/
theorem passthrough_without_callback (c : wrappedConn) (ctx : Ctx) (q : Query)
    (args : Args) (opts : TxOptions) :
    (∀ execer, c.Conn.execContext = some execer → c.interceptor.ExecContext = none →
      c.ExecContext ctx q args = .ok (execer ctx q args)) ∧
    (∀ queryer, c.Conn.queryContext = some queryer → c.interceptor.QueryContext = none →
      c.QueryContext ctx q args = .ok (queryer ctx q args)) ∧
    (∀ preparer, c.Conn.prepareContext = some preparer →
      c.interceptor.PrepareContext = none →
      c.PrepareContext ctx q = .ok (preparer ctx q)) ∧
    (∀ beginner, c.Conn.beginTx = some beginner → c.interceptor.BeginTx = none →
      c.BeginTx ctx opts = .ok (beginner ctx opts)) := by
  refine ⟨fun f h1 h2 => ?_, fun f h1 h2 => ?_, fun f h1 h2 => ?_, fun f h1 h2 => ?_⟩
  · simp [wrappedConn.ExecContext, h1, h2]
  · simp [wrappedConn.QueryContext, h1, h2]
  · simp [wrappedConn.PrepareContext, h1, h2]
  · simp [wrappedConn.BeginTx, h1, h2]

/-- Witness for C5 at a full-capability connection with no callbacks. -/
theorem passthrough_without_callback_witness :
    exWrappedFullNoCb.ExecContext 1 "q" [9] = .ok (exExecer 1 "q" [9]) ∧
    exWrappedFullNoCb.QueryContext 1 "q" [9] = .ok (exQueryer 1 "q" [9]) ∧
    exWrappedFullNoCb.PrepareContext 1 "q" = .ok (exPreparer 1 "q") ∧
    exWrappedFullNoCb.BeginTx 1 2 = .ok (exBeginner 1 2) :=
  ⟨(passthrough_without_callback exWrappedFullNoCb 1 "q" [9] 2).1 exExecer rfl rfl,
   (passthrough_without_callback exWrappedFullNoCb 1 "q" [9] 2).2.1 exQueryer rfl rfl,
   (passthrough_without_callback exWrappedFullNoCb 1 "q" [9] 2).2.2.1 exPreparer rfl rfl,
   (passthrough_without_callback exWrappedFullNoCb 1 "q" [9] 2).2.2.2 exBeginner rfl rfl⟩

/-- C6: if the underlying connector's `Connect` returns an error,
`wrappedConnector.Connect` returns that same error value unchanged (with a
nil connection); if it succeeds, it returns a wrapped connection freshly
constructed around exactly the connection the underlying connector
produced, carrying this connector's interceptor — the result is a function
of this call's probe alone, with no wrapper instance reuse. -/
theorem connector_error_passthrough_fresh_wrap (c : wrappedConnector) (ctx : Ctx) :
    (∀ err : Err, c.Connector.connect ctx = .error err → c.Connect ctx = .error err) ∧
    (∀ conn : Conn, c.Connector.connect ctx = .ok conn →
      ∃ w : ConnectedConn, c.Connect ctx = .ok w ∧
        w.toWrappedConn = wrappedConn.mk conn c.interceptor) := by
  constructor
  · intro err h
    unfold wrappedConnector.Connect
    rw [h]
  · intro conn h
    unfold wrappedConnector.Connect
    rw [h]
    cases hsr : conn.resetSession.isSome <;> cases hv : conn.isValid.isSome <;>
      cases hn : conn.checkNamedValue.isSome <;>
        simp [hsr, hv, hn, ConnectedConn.toWrappedConn]

/-- Witness for C6: a failing connector propagates the exact error; a
succeeding connector wraps the exact produced connection. -/
theorem connector_error_passthrough_fresh_wrap_witness :
    exWConnectorErr.Connect 0 = .error (Err.e 7) ∧
    ∃ w : ConnectedConn, exWConnectorSRN.Connect 1 = .ok w ∧
      w.toWrappedConn = wrappedConn.mk exConnSRN exWConnectorSRN.interceptor :=
  ⟨(connector_error_passthrough_fresh_wrap exWConnectorErr 0).1 (Err.e 7) rfl,
   (connector_error_passthrough_fresh_wrap exWConnectorSRN 1).2 exConnSRN rfl⟩

/-- Counterexample to C7 as stated: on the default data-source-name
connector path, the context is dropped, not forwarded — `dsnConnector.Connect`
ignores its context argument and calls the legacy `Driver.Open(dsn)`, which
takes no context, so two different contexts produce identical interactions
with the underlying driver. -/
theorem dsn_context_dropped_counterexample :
    exDsnConnector.Connect 0 = exDsnConnector.Connect 1 ∧ (0 : Ctx) ≠ 1 :=
  ⟨rfl, by decide⟩

/-- C7 amended: on every wrapped-connection operation the context is
forwarded unchanged to the registered callback (when present) and to the
underlying driver (when not); on the default data-source-name connector
path, however, the context is necessarily dropped: the call reduces to the
context-free legacy `Driver.Open(dsn)`. -/
theorem context_forwarded_except_dsn_path (c : wrappedConn) (t : dsnConnector)
    (ctx : Ctx) (q : Query) (args : Args) (opts : TxOptions) :
    (∀ execer, c.Conn.execContext = some execer → c.interceptor.ExecContext = none →
      c.ExecContext ctx q args = .ok (execer ctx q args)) ∧
    (∀ execer cb, c.Conn.execContext = some execer → c.interceptor.ExecContext = some cb →
      c.ExecContext ctx q args = .ok (cb ctx q args execer)) ∧
    (∀ queryer, c.Conn.queryContext = some queryer → c.interceptor.QueryContext = none →
      c.QueryContext ctx q args = .ok (queryer ctx q args)) ∧
    (∀ queryer cb, c.Conn.queryContext = some queryer → c.interceptor.QueryContext = some cb →
      c.QueryContext ctx q args = .ok (cb ctx q args queryer)) ∧
    (∀ preparer, c.Conn.prepareContext = some preparer →
      c.interceptor.PrepareContext = none → c.PrepareContext ctx q = .ok (preparer ctx q)) ∧
    (∀ preparer cb, c.Conn.prepareContext = some preparer →
      c.interceptor.PrepareContext = some cb →
      c.PrepareContext ctx q = .ok (cb ctx q preparer)) ∧
    (∀ beginner, c.Conn.beginTx = some beginner → c.interceptor.BeginTx = none →
      c.BeginTx ctx opts = .ok (beginner ctx opts)) ∧
    (∀ beginner cb, c.Conn.beginTx = some beginner → c.interceptor.BeginTx = some cb →
      c.BeginTx ctx opts = .ok (cb ctx opts beginner)) ∧
    t.Connect ctx = t.driver.Open t.dsn := by
  refine ⟨fun f h1 h2 => ?_, fun f cb h1 h2 => ?_, fun f h1 h2 => ?_, fun f cb h1 h2 => ?_,
    fun f h1 h2 => ?_, fun f cb h1 h2 => ?_, fun f h1 h2 => ?_, fun f cb h1 h2 => ?_, rfl⟩
  · simp [wrappedConn.ExecContext, h1, h2]
  · simp [wrappedConn.ExecContext, h1, h2]
  · simp [wrappedConn.QueryContext, h1, h2]
  · simp [wrappedConn.QueryContext, h1, h2]
  · simp [wrappedConn.PrepareContext, h1, h2]
  · simp [wrappedConn.PrepareContext, h1, h2]
  · simp [wrappedConn.BeginTx, h1, h2]
  · simp [wrappedConn.BeginTx, h1, h2]

/-- Witness for the amended C7: a context value `5` reaches the underlying
operation and the callback unchanged, while the dsn path reduces to the
context-free `Open`. -/
theorem context_forwarded_except_dsn_path_witness :
    exWrappedFullNoCb.ExecContext 5 "q" [1] = .ok (exExecer 5 "q" [1]) ∧
    exWrappedFullCb.ExecContext 5 "q" [1] = .ok (exExecCb 5 "q" [1] exExecer) ∧
    exDsnConnector.Connect 5 = exDriverBare.Open "dsn" :=
  ⟨(context_forwarded_except_dsn_path exWrappedFullNoCb exDsnConnector 5 "q" [1] 0).1
      exExecer rfl rfl,
   (context_forwarded_except_dsn_path exWrappedFullCb exDsnConnector 5 "q" [1] 0).2.1
      exExecer exExecCb rfl rfl,
   (context_forwarded_except_dsn_path exWrappedFullCb exDsnConnector 5 "q" [1] 0).2.2.2.2.2.2.2.2⟩

/-- Field-level behavior of `V1.Format` at a placeholder verb: the
argument is recorded, the counter advances per `bump`, and the placeholder
text for the advanced counter is appended to the query. -/
theorem V1.Format_fields (b : V1.Builder) (a : Val) (v : Verb) :
    (V1.Format b a v).query = b.query ++ placeholderText v (bump v b.counter) ∧
    (V1.Format b a v).args = b.args ++ [a] ∧
    (V1.Format b a v).counter = bump v b.counter := by
  cases v <;> simp [V1.Format, placeholderText, bump, String.append_assoc]

/-- `V1.Appendf` over segments whose placeholder verbs all have kind `v`,
from an arbitrary starting builder: the query grows by the specification
expansion started at the current counter, the args grow by the verb
arguments in order, and the counter advances once per `%$`/`%@`. -/
theorem V1.Appendf_spec (v : Verb) (segs : List Segment) :
    ∀ b : V1.Builder, (∀ w a, Segment.verb w a ∈ segs → w = v) →
    (V1.Appendf b segs).query = b.query ++ specExpand v b.counter segs ∧
    (V1.Appendf b segs).args = b.args ++ segArgs segs ∧
    (V1.Appendf b segs).counter =
      (if v = Verb.qm then b.counter else b.counter + countVerbs segs) := by
  induction segs with
  | nil =>
    intro b h
    simp [V1.Appendf, specExpand, segArgs, countVerbs]
  | cons s rest ih =>
    intro b h
    cases s with
    | lit str =>
      have h2 : ∀ w a, Segment.verb w a ∈ rest → w = v :=
        fun w a hm => h w a (List.mem_cons_of_mem _ hm)
      rcases ih { b with query := b.query ++ str } h2 with ⟨hq, ha, hc⟩
      simp only [V1.Appendf]
      refine ⟨?_, ?_, ?_⟩
      · rw [hq]; simp [specExpand, String.append_assoc]
      · rw [ha]; simp [segArgs]
      · rw [hc]; simp [countVerbs]
    | verb w a =>
      have hw : w = v := h w a (List.mem_cons_self _ _)
      rw [hw]
      have h2 : ∀ u a2, Segment.verb u a2 ∈ rest → u = v :=
        fun u a2 hm => h u a2 (List.mem_cons_of_mem _ hm)
      rcases V1.Format_fields b a v with ⟨fq, fa, fc⟩
      rcases ih (V1.Format b a v) h2 with ⟨hq, ha, hc⟩
      simp only [V1.Appendf]
      refine ⟨?_, ?_, ?_⟩
      · rw [hq, fq, fc]; simp [specExpand, String.append_assoc]
      · rw [ha, fa]; simp [segArgs]
      · rw [hc, fc]; cases v <;> simp [bump, countVerbs] <;> omega

/-- C8: with a single placeholder-verb kind, the i-th `%$` occurrence
expands to `$i` and the i-th `%@` occurrence to `@pi` (the counter starts
at 1 and increments by exactly one per expanded placeholder, as
`specExpand`/`bump` state), every `%?` expands to `?`, and `Builder.Args`
returns exactly the placeholder-verb arguments in order of appearance. -/
theorem builder_placeholder_numbering (v : Verb) (segs : List Segment)
    (h : ∀ w a, Segment.verb w a ∈ segs → w = v) :
    (V1.Appendf V1.Builder.empty segs).query = specExpand v 0 segs ∧
    (V1.Appendf V1.Builder.empty segs).Args = segArgs segs ∧
    (V1.Appendf V1.Builder.empty segs).counter =
      (if v = Verb.qm then 0 else countVerbs segs) := by
  rcases V1.Appendf_spec v segs V1.Builder.empty h with ⟨hq, ha, hc⟩
  refine ⟨?_, ?_, ?_⟩
  · rw [hq]; simp [V1.Builder.empty]
  · rw [V1.Builder.Args, ha]; simp [V1.Builder.empty]
  · rw [hc]; simp [V1.Builder.empty]

/-- Witness for C8 on the concrete query
`WHERE a = %$ AND b = %$` with arguments 42 and 7, including the fully
evaluated query text. -/
theorem builder_placeholder_numbering_witness :
    (V1.Appendf V1.Builder.empty exSegs).query = specExpand Verb.dollar 0 exSegs ∧
    (V1.Appendf V1.Builder.empty exSegs).Args = segArgs exSegs ∧
    (V1.Appendf V1.Builder.empty exSegs).counter =
      (if Verb.dollar = Verb.qm then 0 else countVerbs exSegs) ∧
    (V1.Appendf V1.Builder.empty exSegs).query = "WHERE a = $1 AND b = $2" := by
  have hsingle : ∀ w a, Segment.verb w a ∈ exSegs → w = Verb.dollar := by
    intro w a hm
    simp [exSegs] at hm
    rcases hm with ⟨h1, h2⟩ | ⟨h1, h2⟩ <;> exact h1
  rcases builder_placeholder_numbering Verb.dollar exSegs hsingle with ⟨hq, ha, hc⟩
  exact ⟨hq, ha, hc, by rw [hq]; rfl⟩

/-- `V2.writePlaceholder` in closed form. -/
theorem V2.writePlaceholder_eq (b : V2.Builder) (v : Verb) :
    V2.writePlaceholder b v =
      { b with counter := bump v b.counter,
               query := b.query ++ placeholderText v (bump v b.counter) } := by
  cases v <;> simp [V2.writePlaceholder, bump, placeholderText, String.append_assoc]

/-- The tail loop of `V2.writeSlice` from an arbitrary builder: each
element contributes `", "`, one placeholder, and one args entry. -/
theorem V2.writeSliceRest_spec (v : Verb) (xs : List Val) : ∀ b : V2.Builder,
    (V2.writeSliceRest v b xs).query = b.query ++ sliceQueryRest v b.counter xs.length ∧
    (V2.writeSliceRest v b xs).args = b.args ++ xs ∧
    (V2.writeSliceRest v b xs).counter =
      (if v = Verb.qm then b.counter else b.counter + xs.length) := by
  induction xs with
  | nil =>
    intro b
    simp [V2.writeSliceRest, sliceQueryRest]
  | cons x rest ih =>
    intro b
    simp only [V2.writeSliceRest]
    rcases ih (V2.pushArg (V2.writePlaceholder { b with query := b.query ++ ", " } v) x) with
      ⟨hq, ha, hc⟩
    refine ⟨?_, ?_, ?_⟩
    · rw [hq, V2.writePlaceholder_eq]
      simp [V2.pushArg, sliceQueryRest, String.append_assoc]
    · rw [ha, V2.writePlaceholder_eq]
      simp [V2.pushArg]
    · rw [hc, V2.writePlaceholder_eq]
      cases v <;> simp [V2.pushArg, bump] <;> omega

/-- C9: in the slice-expansion form (`+` flag), an empty slice expands to
the literal `NULL` and contributes no args; a non-empty slice of length n
expands to n comma-separated placeholders and appends exactly its n
elements to args in index order; a non-slice argument with the `+` flag
panics. The hypothesis keeps the placeholder-kind check (shared with the
non-slice path) from firing. -/
theorem builder_slice_expansion (b : V2.Builder) (v : Verb)
    (h : b.placeholder = 0 ∨ b.placeholder = verbCode v) :
    (∀ n, V2.Format b (.base n) v true = .panics "non-slice argument") ∧
    (V2.Format b (.slice []) v true =
      .ok { b with placeholder := verbCode v, query := b.query ++ "NULL" }) ∧
    (∀ xs : List Val, xs ≠ [] → ∃ b2 : V2.Builder,
      V2.Format b (.slice xs) v true = .ok b2 ∧
      b2.query = b.query ++ sliceQuery v b.counter xs.length ∧
      b2.args = b.args ++ xs ∧
      b2.counter = (if v = Verb.qm then b.counter else b.counter + xs.length)) := by
  have hph : (if b.placeholder = 0 then verbCode v else b.placeholder) = verbCode v := by
    rcases h with h | h <;> simp [h]
  refine ⟨fun n => ?_, ?_, fun xs hxs => ?_⟩
  · simp [V2.Format, hph, V2.writeSlice]
  · simp [V2.Format, hph, V2.writeSlice]
  · cases xs with
    | nil => exact absurd rfl hxs
    | cons x rest =>
      rcases V2.writeSliceRest_spec v rest
          (V2.pushArg (V2.writePlaceholder { b with placeholder := verbCode v } v) x) with
        ⟨hq, ha, hc⟩
      refine ⟨V2.writeSliceRest v
        (V2.pushArg (V2.writePlaceholder { b with placeholder := verbCode v } v) x) rest,
        ?_, ?_, ?_, ?_⟩
      · simp [V2.Format, hph, V2.writeSlice]
      · rw [hq, V2.writePlaceholder_eq]
        simp [V2.pushArg, sliceQuery, String.append_assoc]
      · rw [ha, V2.writePlaceholder_eq]
        simp [V2.pushArg]
      · rw [hc, V2.writePlaceholder_eq]
        cases v <;> simp [V2.pushArg, bump] <;> omega

/-- Witness for C9 on a fresh builder with the `%$` verb: a non-slice
argument panics, an empty slice renders `NULL` with no args, and the
two-element slice `[1, 2]` renders two placeholders and both args. -/
theorem builder_slice_expansion_witness :
    V2.Format V2.Builder.empty (.base 3) Verb.dollar true = .panics "non-slice argument" ∧
    V2.Format V2.Builder.empty (.slice []) Verb.dollar true =
      .ok (⟨"NULL", [], 0, 36⟩ : V2.Builder) ∧
    ∃ b2 : V2.Builder,
      V2.Format V2.Builder.empty (.slice [.base 1, .base 2]) Verb.dollar true = .ok b2 ∧
      b2.query = V2.Builder.empty.query ++ sliceQuery Verb.dollar V2.Builder.empty.counter 2 ∧
      b2.args = V2.Builder.empty.args ++ [.base 1, .base 2] ∧
      b2.counter = (if Verb.dollar = Verb.qm then V2.Builder.empty.counter
        else V2.Builder.empty.counter + 2) :=
  ⟨(builder_slice_expansion V2.Builder.empty Verb.dollar (Or.inl rfl)).1 3,
   (builder_slice_expansion V2.Builder.empty Verb.dollar (Or.inl rfl)).2.1,
   (builder_slice_expansion V2.Builder.empty Verb.dollar (Or.inl rfl)).2.2
     [.base 1, .base 2] (List.cons_ne_nil _ _)⟩

/-- C10: `QueryRow` returns the zero value of `T` with `sql.ErrNoRows`
whenever the query and column retrieval succeed, no row is produced, and
iteration reports no error; and on every path that returns an error (query
failure, column failure, scan failure, or rows error) the accompanying
value is exactly the zero value, never a partially filled one. -/
theorem queryRow_zero_value_on_error {T : Type} (zeroT : T)
    (q : Except SqlError (RowsModel T)) :
    (∀ (rows : RowsModel T) (cols : List String), q = .ok rows →
      rows.columns = .ok cols → rows.next = false → rows.rowsErr = none →
      QueryRow zeroT q = (zeroT, some SqlError.errNoRows)) ∧
    (∀ e : SqlError, (QueryRow zeroT q).2 = some e → (QueryRow zeroT q).1 = zeroT) := by
  constructor
  · intro rows cols hq hcol hn he
    subst hq
    simp [QueryRow, hcol, hn, he]
  · intro e
    cases q with
    | error err => simp [QueryRow]
    | ok rows =>
      cases hcol : rows.columns with
      | error e2 => simp [QueryRow, hcol]
      | ok cols =>
        cases hn : rows.next with
        | false =>
          cases he : rows.rowsErr <;> simp [QueryRow, hcol, hn, he]
        | true =>
          cases hsc : rows.scanRow cols with
          | error e3 => simp [QueryRow, hcol, hn, hsc]
          | ok t =>
            cases he : rows.rowsErr <;> simp [QueryRow, hcol, hn, hsc, he]

/-- Witness for C10: a rows handle with no rows yields
`(0, sql.ErrNoRows)`, and a failing first-row scan yields the zero value. -/
theorem queryRow_zero_value_on_error_witness :
    QueryRow (0 : Nat) (.ok exRowsEmpty) = (0, some SqlError.errNoRows) ∧
    (QueryRow (0 : Nat) (.ok exRowsScanErr)).1 = 0 :=
  ⟨(queryRow_zero_value_on_error 0 (.ok exRowsEmpty)).1 exRowsEmpty ["c"] rfl rfl rfl rfl,
   (queryRow_zero_value_on_error 0 (.ok exRowsScanErr)).2 (SqlError.driverErr 3) rfl⟩
